import Mathlib

/-!
# The OpenWeatherMap client (`client/open_weather_map.go`)

A shallow embedding of the two operations of the client, `GetCurrent` and
`GetForecast`, and of the data they map.

The Go standard library is not part of the repository, so what the client asks of
it is an input of the model:

* the HTTP transport is the `client` field of `OpenWeatherMap`: a function from the
  requested URL to either a transport error or a response (status code and what
  `io.ReadAll` yields on the body);
* `json.Unmarshal` and the float verbs of package `fmt` are the fields of `Runtime`.

A Go call ends in one of two ways: it returns its pair of results, or it panics
(`Outcome.fault`).  A pointer is an `Option`, a slice of pointers a `List` of
`Option`s (a nil slice and an empty slice are both the empty list when read), an
`error` its message.  Every call also records the effects it performs, in order
(`Run.effects`).

The `location` of a client is a pointer copied from the configuration.  Both operations
dereference it before anything else and panic when it is nil; the theorems below are
about a client that has a location, `owm.location = some loc`.
-/

namespace client

/-! ## Values -/

/-- A Go `float64`, as its IEEE-754 binary64 bit pattern.  The client only copies and
formats these values. -/
structure Float64 where
  bits : Nat
  deriving DecidableEq

/-- A Go `[]byte`. -/
abbrev Bytes := List UInt8

/-- A Go `time.Time`, as the instant it denotes: seconds and nanoseconds after the UNIX
epoch (1970-01-01T00:00:00Z). -/
structure Time where
  sec : Int
  nsec : Int
  deriving DecidableEq

namespace time

/-- The Go `time.Unix(sec, nsec)` for `0 ≤ nsec < 1e9` (the client always passes `0`). -/
def Unix (sec : Int) (nsec : Int) : Time := ⟨sec, nsec⟩

end time

/-- Whether `y` is a leap year of the Gregorian calendar. -/
def isLeapYear (y : Nat) : Bool :=
  (y % 4 == 0 && y % 100 != 0) || y % 400 == 0

/-- Number of leap years among the years `1 .. y - 1`. -/
def leapYearsBefore (y : Nat) : Nat :=
  (y - 1) / 4 - (y - 1) / 100 + (y - 1) / 400

/-- Number of days in month `m` (1 to 12) of year `y`. -/
def daysInMonth (y m : Nat) : Nat :=
  if m = 2 then (if isLeapYear y then 29 else 28)
  else if m = 4 ∨ m = 6 ∨ m = 9 ∨ m = 11 then 30
  else 31

/-- The instant written `y-mo-dTh:mi:sZ` (a UTC calendar date, year 1970 or later): the
reading of the timestamps that the specification writes in this notation. -/
def utcInstant (y mo d h mi s : Nat) : Time :=
  let days := 365 * (y - 1970) + (leapYearsBefore y - leapYearsBefore 1970)
    + ((List.range (mo - 1)).map (fun k => daysInMonth y (k + 1))).sum + (d - 1)
  ⟨(((days * 24 + h) * 60 + mi) * 60 + s : Nat), 0⟩

/-! ## Constants -/

def OpenWeatherMapApiUrl : String := "https://api.openweathermap.org/data/2.5"
def OpenWeatherMapPeriodDaily : String := "daily"
def OpenWeatherMapPeriodHourly : String := "hourly"
def OpenWeatherMapName : String := "open-weather-map"

/-- The Go `http.StatusUnauthorized`. -/
def StatusUnauthorized : Int := 401

/-! ## Data model -/

structure OpenWeatherMapWeather where
  ID : Int
  Main : String
  Description : String
  Icon : String
  deriving DecidableEq

structure OpenWeatherMapMain where
  Dt : Int
  Temp : Float64
  FeelsLike : Float64
  TempMin : Float64
  TempMax : Float64
  Pressure : Int
  Humidity : Float64
  Weather : List (Option OpenWeatherMapWeather)
  deriving DecidableEq

structure OpenWeatherMapWeatherForecastResponse where
  TimeZone : String
  Current : Option OpenWeatherMapMain
  Minutely : List (Option OpenWeatherMapMain)
  Hourly : List (Option OpenWeatherMapMain)
  deriving DecidableEq

/-- The anonymous struct of the `wind` field. -/
structure OpenWeatherMapWind where
  Speed : Float64
  Deg : Int
  deriving DecidableEq

/-- The anonymous struct of the `clouds` field. -/
structure OpenWeatherMapClouds where
  All : Int
  deriving DecidableEq

structure OpenWeatherMapWeatherResponse where
  DateTime : Int
  Weather : List (Option OpenWeatherMapWeather)
  Main : Option OpenWeatherMapMain
  Wind : OpenWeatherMapWind
  Clouds : OpenWeatherMapClouds
  deriving DecidableEq

structure Location where
  Lat : Float64
  Lon : Float64
  Name : String
  deriving DecidableEq

structure Config where
  Key : String
  Secret : String
  Location : Option Location
  deriving DecidableEq

/-- Modelled from the spec: the normalized `Weather` record, which the package declares
outside `open_weather_map.go`.  The fields are the ones the two composite literals of
the client set, with the types of the values assigned to them; a field that a literal
leaves out keeps its zero value (the empty string for `Description` and `TimeZone`). -/
structure Weather where
  «Type» : String := ""
  Description : String := ""
  TimeZone : String := ""
  DateTime : Time
  Temp : Float64
  TempFeeling : Float64
  TempMin : Float64
  TempMax : Float64
  Humidity : Float64
  deriving DecidableEq

/-! ## The environment of a call -/

/-- An `*http.Response`, as far as the client looks at it: the status code, and what
`io.ReadAll` yields on the body (all its bytes, or a read error). -/
structure HttpResponse where
  StatusCode : Int
  Body : Except String Bytes

/-- An `*http.Client`: `Get` answers a URL with a response or with a transport error. -/
structure HttpClient where
  Get : String → Except String HttpResponse

structure OpenWeatherMap where
  key : String
  secret : String
  location : Option Location
  client : HttpClient

/-- What the client uses of the Go standard library. -/
structure Runtime where
  /-- The verb `%.3f` of package `fmt` on a `float64`. -/
  formatF3 : Float64 → String
  /-- The default format of package `fmt` (as in `Println`) on a `float64`. -/
  formatV : Float64 → String
  /-- The Go `json.Unmarshal(b, &out)` for `out` a nil `*OpenWeatherMapWeatherResponse`:
  a decode error, or the value left in `out` (nil for the JSON text `null`). -/
  unmarshalWeatherResponse : Bytes → Except String (Option OpenWeatherMapWeatherResponse)
  /-- The Go `json.Unmarshal(b, &out)` for `out` a nil
  `*OpenWeatherMapWeatherForecastResponse`. -/
  unmarshalForecastResponse :
    Bytes → Except String (Option OpenWeatherMapWeatherForecastResponse)

/-- A run-time panic of the Go runtime. -/
inductive Fault where
  /-- Invalid memory address or nil pointer dereference. -/
  | nilDereference
  /-- Index out of range `[index]` with length `length`. -/
  | indexOutOfRange (index length : Nat)
  deriving DecidableEq

/-- How a call of a Go function with results `(value, error)` ends. -/
inductive Outcome (α : Type) where
  /-- The function returns: `value` is `none` for a nil pointer or slice, `err` is `none`
  for a nil error and the message of the error otherwise. -/
  | returned (value : Option α) (err : Option String)
  /-- The function panics; nothing is returned. -/
  | fault (f : Fault)
  deriving DecidableEq

/-- What a call does to the outside world. -/
inductive Effect where
  /-- A line written to standard output. -/
  | stdout (text : String)
  /-- The request `client.Get(url)`. -/
  | httpGet (url : String)
  /-- The call `io.ReadAll(req.Body)`. -/
  | readAll
  /-- The call `json.Unmarshal(data, &out)`. -/
  | unmarshal (data : Bytes)
  /-- The deferred `req.Body.Close()`. -/
  | bodyClose
  deriving DecidableEq

/-- A complete call: its effects in order, and how it ends. -/
structure Run (α : Type) where
  effects : List Effect
  outcome : Outcome α
  deriving DecidableEq

/-- The URLs a run requested, in order. -/
def Run.requestedURLs {α : Type} (r : Run α) : List String :=
  r.effects.filterMap (fun e => match e with
    | .httpGet url => some url
    | _ => none)

/-- Whether a run decoded a body. -/
def Run.decodes {α : Type} (r : Run α) : Bool :=
  r.effects.any (fun e => match e with
    | .unmarshal _ => true
    | _ => false)

/-! ## Go primitives -/

/-- The pointer indirection `p.f`. -/
def deref {α : Type} (p : Option α) : Except Fault α :=
  match p with
  | none => .error .nilDereference
  | some a => .ok a

/-- The index expression `xs[i]`. -/
def index {α : Type} (xs : List α) (i : Nat) : Except Fault α :=
  match xs[i]? with
  | none => .error (.indexOutOfRange i xs.length)
  | some a => .ok a

/-- The assignment `xs[i] = v`. -/
def setIndex {α : Type} (xs : List α) (i : Nat) (v : α) : Except Fault (List α) :=
  if i < xs.length then .ok (xs.set i v) else .error (.indexOutOfRange i xs.length)

/-- An operand of a `fmt` call. -/
inductive FmtArg where
  | str (s : String)
  | float (x : Float64)

/-- The loop of `fmt.Sprintf` over the format, for the two verbs the client uses: `%s`
on a string and `%.3f` on a `float64`.  Any other character is copied. -/
def Sprintf.go (rt : Runtime) : List Char → List FmtArg → List Char
  | [], _ => []
  | '%' :: 's' :: rest, .str s :: args => s.data ++ Sprintf.go rt rest args
  | '%' :: '.' :: '3' :: 'f' :: rest, .float x :: args =>
    (rt.formatF3 x).data ++ Sprintf.go rt rest args
  | c :: rest, args => c :: Sprintf.go rt rest args

/-- The Go `fmt.Sprintf(format, args...)`. -/
def Sprintf (rt : Runtime) (format : String) (args : List FmtArg) : String :=
  ⟨Sprintf.go rt format.data args⟩

/-- The Go `fmt.Errorf(format, args...)`, as the message of the error it makes. -/
def Errorf (rt : Runtime) (format : String) (args : List FmtArg) : String :=
  Sprintf rt format args

/-- The line that `fmt.Println(args...)` writes: the operands in their default format,
separated by spaces, and a newline. -/
def Println (rt : Runtime) (args : List FmtArg) : String :=
  " ".intercalate (args.map (fun a => match a with
    | .str s => s
    | .float x => rt.formatV x)) ++ "\n"

/-! ## The client -/

def NewOpenWeatherMap (defaultClient : HttpClient) (cnf : Option Config) :
    Except Fault OpenWeatherMap := do
  let c ← deref cnf
  pure { key := c.Key, secret := c.Secret, location := c.Location, client := defaultClient }

/-- The URL of `GetCurrent` (line 83). -/
def currentURL (rt : Runtime) (loc : Location) (secret : String) : String :=
  Sprintf rt "%s/weather?lat=%.3f&lon=%.3f&appid=%s&units=metric"
    [.str OpenWeatherMapApiUrl, .float loc.Lat, .float loc.Lat, .str secret]

/-- The URL of `GetForecast` (line 114). -/
def forecastURL (rt : Runtime) (loc : Location) (secret : String) : String :=
  Sprintf rt "%s/onecall?lat=%.3f&lon=%.3f&appid=%s&units=metric"
    [.str OpenWeatherMapApiUrl, .float loc.Lat, .float loc.Lon, .str secret]

/-- The composite literal of `GetCurrent` (lines 100 to 109), its field values
evaluated in the order they are written. -/
def currentWeather (out : Option OpenWeatherMapWeatherResponse) : Except Fault Weather := do
  let type ← do
    let o ← deref out
    let w0 ← index o.Weather 0
    let c ← deref w0
    pure c.Main
  let dateTime ← do
    let o ← deref out
    pure (time.Unix o.DateTime 0)
  let description ← do
    let o ← deref out
    let w0 ← index o.Weather 0
    let c ← deref w0
    pure c.Description
  let temp ← do
    let o ← deref out
    let m ← deref o.Main
    pure m.Temp
  let tempFeeling ← do
    let o ← deref out
    let m ← deref o.Main
    pure m.FeelsLike
  let tempMin ← do
    let o ← deref out
    let m ← deref o.Main
    pure m.TempMin
  let tempMax ← do
    let o ← deref out
    let m ← deref o.Main
    pure m.TempMax
  let humidity ← do
    let o ← deref out
    let m ← deref o.Main
    pure m.Humidity
  pure {
    «Type» := type
    DateTime := dateTime
    Description := description
    Temp := temp
    TempFeeling := tempFeeling
    TempMin := tempMin
    TempMax := tempMax
    Humidity := humidity }

def GetCurrent (rt : Runtime) (owm : OpenWeatherMap) : Run Weather :=
  match owm.location with
  | none => ⟨[], .fault .nilDereference⟩
  | some loc =>
    let url := currentURL rt loc owm.secret
    match owm.client.Get url with
    | .error err => ⟨[.httpGet url], .returned none (some err)⟩
    | .ok req =>
      match req.Body with
      | .error err => ⟨[.httpGet url, .readAll, .bodyClose], .returned none (some err)⟩
      | .ok b =>
        match rt.unmarshalWeatherResponse b with
        | .error err =>
          ⟨[.httpGet url, .readAll, .unmarshal b, .bodyClose], .returned none (some err)⟩
        | .ok out =>
          ⟨[.httpGet url, .readAll, .unmarshal b, .bodyClose],
            match currentWeather out with
            | .error f => .fault f
            | .ok w => .returned (some w) none⟩

/-- The composite literal of the loop of `GetForecast` (lines 139 to 148) for the
entry `w` of the hourly block. -/
def forecastWeather (timeZone : String) (w : Option OpenWeatherMapMain) :
    Except Fault Weather := do
  let type ← do
    let m ← deref w
    let w0 ← index m.Weather 0
    let c ← deref w0
    pure c.Main
  let dateTime ← do
    let m ← deref w
    pure (time.Unix m.Dt 0)
  let temp ← do
    let m ← deref w
    pure m.Temp
  let tempFeeling ← do
    let m ← deref w
    pure m.FeelsLike
  let tempMin ← do
    let m ← deref w
    pure m.TempMin
  let tempMax ← do
    let m ← deref w
    pure m.TempMax
  let humidity ← do
    let m ← deref w
    pure m.Humidity
  pure {
    «Type» := type
    DateTime := dateTime
    TimeZone := timeZone
    Temp := temp
    TempFeeling := tempFeeling
    TempMin := tempMin
    TempMax := tempMax
    Humidity := humidity }

/-- The loop `for i, w := range out.Hourly` (lines 138 to 149), from index `i` on:
`hourly` holds the entries still to visit, `list` is the slice being filled. -/
def forecastLoop (timeZone : String) :
    Nat → List (Option OpenWeatherMapMain) → List (Option Weather) →
      Except Fault (List (Option Weather))
  | _, [], list => .ok list
  | i, w :: hourly, list => do
    let x ← forecastWeather timeZone w
    let list1 ← setIndex list i (some x)
    forecastLoop timeZone (i + 1) hourly list1

/-- Lines 137 to 151 of `GetForecast`: what follows the decoding. -/
def forecastList (out : Option OpenWeatherMapWeatherForecastResponse) :
    Except Fault (List (Option Weather)) := do
  let o ← deref out
  let list := List.replicate o.Hourly.length (none : Option Weather)
  forecastLoop o.TimeZone 0 o.Hourly list

def GetForecast (rt : Runtime) (owm : OpenWeatherMap) : Run (List (Option Weather)) :=
  match owm.location with
  | none => ⟨[], .fault .nilDereference⟩
  | some loc =>
    let line1 := Println rt [.float loc.Lat, .float loc.Lat]
    let url := forecastURL rt loc owm.secret
    let line2 := Println rt [.str url]
    match owm.client.Get url with
    | .error err =>
      ⟨[.stdout line1, .stdout line2, .httpGet url],
        .returned none (some (Errorf rt "%s: %s" [.str OpenWeatherMapName, .str err]))⟩
    | .ok req =>
      if req.StatusCode = StatusUnauthorized then
        ⟨[.stdout line1, .stdout line2, .httpGet url, .bodyClose],
          .returned none (some (Errorf rt "%s: invalid api key" [.str OpenWeatherMapName]))⟩
      else
        match req.Body with
        | .error err =>
          ⟨[.stdout line1, .stdout line2, .httpGet url, .readAll, .bodyClose],
            .returned none (some (Errorf rt "%s: %s" [.str OpenWeatherMapName, .str err]))⟩
        | .ok b =>
          match rt.unmarshalForecastResponse b with
          | .error err =>
            ⟨[.stdout line1, .stdout line2, .httpGet url, .readAll, .unmarshal b, .bodyClose],
              .returned none (some (Errorf rt "%s: %s" [.str OpenWeatherMapName, .str err]))⟩
          | .ok out =>
            ⟨[.stdout line1, .stdout line2, .httpGet url, .readAll, .unmarshal b, .bodyClose],
              match forecastList out with
              | .error f => .fault f
              | .ok list => .returned (some list) none⟩

/-! ## Concrete inputs -/

/-- A location: latitude 52.37, longitude 4.895. -/
def amsterdam : Location := ⟨⟨0x404a2f5c28f5c28f⟩, ⟨0x4013947ae147ae14⟩, "Amsterdam"⟩

/-- A transport that answers every request with `r`. -/
def constClient (r : Except String HttpResponse) : HttpClient := ⟨fun _ => r⟩

/-- A runtime whose decoders answer every body with `current` and `forecast`. -/
def constRuntime (current : Except String (Option OpenWeatherMapWeatherResponse))
    (forecast : Except String (Option OpenWeatherMapWeatherForecastResponse)) : Runtime where
  formatF3 := fun x => toString x.bits
  formatV := fun x => toString x.bits
  unmarshalWeatherResponse := fun _ => current
  unmarshalForecastResponse := fun _ => forecast

/-- A client located in `amsterdam` over the transport `constClient r`. -/
def exampleClient (r : Except String HttpResponse) : OpenWeatherMap :=
  ⟨"key", "secret", some amsterdam, constClient r⟩

/-- A body cut off after its first two bytes. -/
def truncatedBody : Bytes := [0x7b, 0x22]

/-- The message of a refused connection. -/
def connectionRefused : String := "dial tcp 127.0.0.1:443: connect: connection refused"

/-- The message of a decode error on a cut-off body. -/
def unexpectedEnd : String := "unexpected end of JSON input"

def clearSky : OpenWeatherMapWeather := ⟨800, "Clear", "clear sky", "01d"⟩

def lightRain : OpenWeatherMapWeather := ⟨500, "Rain", "light rain", "10d"⟩

/-- The main block `temp` 20.5, `feels_like` 19.8, `temp_min` 18.0, `temp_max` 22.0,
`humidity` 55 of the round-trip scenario. -/
def roundTripMain : OpenWeatherMapMain where
  Dt := 0
  Temp := ⟨0x4034800000000000⟩
  FeelsLike := ⟨0x4033cccccccccccd⟩
  TempMin := ⟨0x4032000000000000⟩
  TempMax := ⟨0x4036000000000000⟩
  Pressure := 0
  Humidity := ⟨0x404b800000000000⟩
  Weather := []

/-- The decoded fixture of the round-trip scenario. -/
def roundTripResponse : OpenWeatherMapWeatherResponse where
  DateTime := 1700000000
  Weather := [some ⟨0, "Clear", "clear sky", ""⟩]
  Main := some roundTripMain
  Wind := ⟨⟨0⟩, 0⟩
  Clouds := ⟨0⟩

/-- A response with a main block and two condition entries, the first of them `null`. -/
def nullFirstConditionResponse : OpenWeatherMapWeatherResponse where
  DateTime := 1700000000
  Weather := [none, some lightRain]
  Main := some roundTripMain
  Wind := ⟨⟨0⟩, 0⟩
  Clouds := ⟨0⟩

/-- A response with one condition entry and no main block. -/
def noMainResponse : OpenWeatherMapWeatherResponse where
  DateTime := 1700000000
  Weather := [some lightRain]
  Main := none
  Wind := ⟨⟨0⟩, 0⟩
  Clouds := ⟨0⟩

/-- A response with neither a condition entry nor a main block. -/
def bareResponse : OpenWeatherMapWeatherResponse where
  DateTime := 1700000000
  Weather := []
  Main := none
  Wind := ⟨⟨0⟩, 0⟩
  Clouds := ⟨0⟩

/-- An hourly entry: 12.3 degrees (feels like 11.0, between 9.5 and 13.0), humidity 80,
with the condition entries `conditions`. -/
def hourAt (dt : Int) (conditions : List (Option OpenWeatherMapWeather)) :
    OpenWeatherMapMain where
  Dt := dt
  Temp := ⟨0x402899999999999a⟩
  FeelsLike := ⟨0x4026000000000000⟩
  TempMin := ⟨0x4023000000000000⟩
  TempMax := ⟨0x402a000000000000⟩
  Pressure := 1013
  Humidity := ⟨0x4054000000000000⟩
  Weather := conditions

/-- A forecast response in the zone `Europe/Amsterdam` with the hourly block `hourly`. -/
def forecastOf (hourly : List (Option OpenWeatherMapMain)) :
    OpenWeatherMapWeatherForecastResponse where
  TimeZone := "Europe/Amsterdam"
  Current := none
  Minutely := []
  Hourly := hourly

/-- Two well-formed hours. -/
def twoHours : OpenWeatherMapWeatherForecastResponse :=
  forecastOf [some (hourAt 1700000000 [some clearSky]), some (hourAt 1700003600 [some lightRain])]

/-- One hour whose condition array holds two entries, the first of them `null`. -/
def nullFirstConditionHour : OpenWeatherMapWeatherForecastResponse :=
  forecastOf [some (hourAt 1700000000 [none, some lightRain])]

/-- A well-formed hour followed by an hour with an empty condition array. -/
def secondHourEmpty : OpenWeatherMapWeatherForecastResponse :=
  forecastOf [some (hourAt 1700000000 [some clearSky]), some (hourAt 1700003600 [])]

/-- A `null` hour followed by an hour with an empty condition array. -/
def nullHourThenEmpty : OpenWeatherMapWeatherForecastResponse :=
  forecastOf [none, some (hourAt 1700003600 [])]

/-- A response without hourly entries, as decoded from an error payload. -/
def noHours : OpenWeatherMapWeatherForecastResponse :=
  { TimeZone := "", Current := none, Minutely := [], Hourly := [] }

/-! ## The formatted strings -/

theorem currentURL_eq (rt : Runtime) (loc : Location) (secret : String) :
    currentURL rt loc secret =
      "https://api.openweathermap.org/data/2.5" ++ "/weather?lat=" ++ rt.formatF3 loc.Lat ++
        "&lon=" ++ rt.formatF3 loc.Lat ++ "&appid=" ++ secret ++ "&units=metric" := by
  apply String.ext
  simp [currentURL, Sprintf, Sprintf.go, OpenWeatherMapApiUrl]

theorem Errorf_wrap (rt : Runtime) (err : String) :
    Errorf rt "%s: %s" [.str OpenWeatherMapName, .str err] = "open-weather-map: " ++ err := by
  apply String.ext
  simp [Errorf, Sprintf, Sprintf.go, OpenWeatherMapName]

theorem Errorf_invalidKey (rt : Runtime) :
    Errorf rt "%s: invalid api key" [.str OpenWeatherMapName] =
      "open-weather-map: invalid api key" := by
  apply String.ext
  simp [Errorf, Sprintf, Sprintf.go, OpenWeatherMapName]

/-! ## The composite literal of `GetCurrent` -/

theorem currentWeather_nil : currentWeather none = .error .nilDereference := rfl

theorem currentWeather_empty (o : OpenWeatherMapWeatherResponse) (h : o.Weather = []) :
    currentWeather (some o) = .error (.indexOutOfRange 0 0) := by
  simp [currentWeather, deref, index, h, bind, Except.bind]

theorem currentWeather_nilCondition (o : OpenWeatherMapWeatherResponse)
    (rest : List (Option OpenWeatherMapWeather)) (h : o.Weather = none :: rest) :
    currentWeather (some o) = .error .nilDereference := by
  simp [currentWeather, deref, index, h, bind, Except.bind]

theorem currentWeather_nilMain (o : OpenWeatherMapWeatherResponse) (c : OpenWeatherMapWeather)
    (rest : List (Option OpenWeatherMapWeather)) (h : o.Weather = some c :: rest)
    (hm : o.Main = none) :
    currentWeather (some o) = .error .nilDereference := by
  simp [currentWeather, deref, index, h, hm, bind, Except.bind, pure, Except.pure]

theorem currentWeather_ok (o : OpenWeatherMapWeatherResponse) (c : OpenWeatherMapWeather)
    (rest : List (Option OpenWeatherMapWeather)) (m : OpenWeatherMapMain)
    (h : o.Weather = some c :: rest) (hm : o.Main = some m) :
    currentWeather (some o) = .ok {
      «Type» := c.Main
      Description := c.Description
      TimeZone := ""
      DateTime := time.Unix o.DateTime 0
      Temp := m.Temp
      TempFeeling := m.FeelsLike
      TempMin := m.TempMin
      TempMax := m.TempMax
      Humidity := m.Humidity } := by
  simp [currentWeather, deref, index, h, hm, bind, Except.bind, pure, Except.pure]

/-- A response without a main block never maps to a record. -/
theorem currentWeather_noMain (o : OpenWeatherMapWeatherResponse) (hm : o.Main = none)
    (hne : o.Weather ≠ []) : currentWeather (some o) = .error .nilDereference := by
  cases hw : o.Weather with
  | nil => exact absurd hw hne
  | cons c rest =>
    cases c with
    | none => exact currentWeather_nilCondition o rest hw
    | some c => exact currentWeather_nilMain o c rest hw hm

/-- The literal yields a record exactly on a response with a first condition entry and
a main block. -/
theorem currentWeather_isOk (out : Option OpenWeatherMapWeatherResponse) (w : Weather)
    (h : currentWeather out = .ok w) :
    ∃ o c rest m, out = some o ∧ o.Weather = some c :: rest ∧ o.Main = some m := by
  cases out with
  | none => simp [currentWeather_nil] at h
  | some o =>
    cases hw : o.Weather with
    | nil => simp [currentWeather_empty o hw] at h
    | cons c rest =>
      cases c with
      | none => simp [currentWeather_nilCondition o rest hw] at h
      | some c =>
        cases hm : o.Main with
        | none => simp [currentWeather_nilMain o c rest hw hm] at h
        | some m => exact ⟨o, c, rest, m, rfl, hw, hm⟩

/-! ## `GetCurrent` -/

/-- The run of `GetCurrent` once the body is decoded. -/
theorem GetCurrent_decoded (rt : Runtime) (owm : OpenWeatherMap) (loc : Location)
    (req : HttpResponse) (b : Bytes) (out : Option OpenWeatherMapWeatherResponse)
    (hloc : owm.location = some loc)
    (hget : owm.client.Get (currentURL rt loc owm.secret) = .ok req)
    (hbody : req.Body = .ok b)
    (hdec : rt.unmarshalWeatherResponse b = .ok out) :
    (GetCurrent rt owm).outcome =
      match currentWeather out with
      | .error f => .fault f
      | .ok w => .returned (some w) none := by
  simp [GetCurrent, hloc, hget, hbody, hdec]

/-! ## The loop of `GetForecast` -/

theorem take_succ_set {α : Type} (v : α) : ∀ (l : List α) (i : Nat), i < l.length →
    (l.set i v).take (i + 1) = l.take i ++ [v]
  | [], i, h => by simp at h
  | a :: l, 0, _ => by simp
  | a :: l, i + 1, h => by
    have := take_succ_set v l i (by simpa using h)
    simp [this]

theorem forecastWeather_nil (tz : String) :
    forecastWeather tz none = .error .nilDereference := rfl

theorem forecastWeather_empty (tz : String) (m : OpenWeatherMapMain) (h : m.Weather = []) :
    forecastWeather tz (some m) = .error (.indexOutOfRange 0 0) := by
  simp [forecastWeather, deref, index, h, bind, Except.bind]

theorem forecastWeather_nilCondition (tz : String) (m : OpenWeatherMapMain)
    (rest : List (Option OpenWeatherMapWeather)) (h : m.Weather = none :: rest) :
    forecastWeather tz (some m) = .error .nilDereference := by
  simp [forecastWeather, deref, index, h, bind, Except.bind]

theorem forecastWeather_ok (tz : String) (m : OpenWeatherMapMain) (c : OpenWeatherMapWeather)
    (rest : List (Option OpenWeatherMapWeather)) (h : m.Weather = some c :: rest) :
    forecastWeather tz (some m) = .ok {
      «Type» := c.Main
      Description := ""
      TimeZone := tz
      DateTime := time.Unix m.Dt 0
      Temp := m.Temp
      TempFeeling := m.FeelsLike
      TempMin := m.TempMin
      TempMax := m.TempMax
      Humidity := m.Humidity } := by
  simp [forecastWeather, deref, index, h, bind, Except.bind, pure, Except.pure]

theorem forecastWeather_isOk (tz : String) (e : Option OpenWeatherMapMain) (w : Weather)
    (h : forecastWeather tz e = .ok w) :
    ∃ m c rest, e = some m ∧ m.Weather = some c :: rest := by
  cases e with
  | none => simp [forecastWeather_nil] at h
  | some m =>
    cases hw : m.Weather with
    | nil => simp [forecastWeather_empty tz m hw] at h
    | cons c rest =>
      cases c with
      | none => simp [forecastWeather_nilCondition tz m rest hw] at h
      | some c => exact ⟨m, c, rest, rfl, hw⟩

theorem forecastLoop_ok (tz : String) : ∀ (hourly : List (Option OpenWeatherMapMain))
    (i : Nat) (list : List (Option Weather)),
    (∀ e ∈ hourly, ∃ m c rest, e = some m ∧ m.Weather = some c :: rest) →
    i + hourly.length ≤ list.length →
    forecastLoop tz i hourly list =
      .ok (list.take i ++ hourly.map (fun e => (forecastWeather tz e).toOption) ++
        list.drop (i + hourly.length))
  | [], i, list, _, _ => by simp [forecastLoop]
  | e :: hourly, i, list, hwf, hlen => by
    obtain ⟨m, c, rest, rfl, hw⟩ := hwf e (by simp)
    have hlen1 : i + 1 + hourly.length ≤ list.length := by
      simp only [List.length_cons] at hlen; omega
    have hi : i < list.length := by omega
    have ih := fun v => forecastLoop_ok tz hourly (i + 1) (list.set i v)
      (fun e he => hwf e (by simp [he])) (by simpa using hlen1)
    simp only [forecastLoop, forecastWeather_ok tz m c rest hw, setIndex, hi, if_true,
      bind, Except.bind]
    rw [ih, take_succ_set _ list i hi, List.drop_set_of_lt _ _ (by omega)]
    simp [Except.toOption, forecastWeather_ok tz m c rest hw, Nat.add_assoc, Nat.add_comm 1]

theorem forecastLoop_fault (tz : String) (f : Fault) (e : Option OpenWeatherMapMain)
    (post : List (Option OpenWeatherMapMain)) (he : forecastWeather tz e = .error f) :
    ∀ (pre : List (Option OpenWeatherMapMain)) (i : Nat) (list : List (Option Weather)),
    (∀ x ∈ pre, ∃ m c rest, x = some m ∧ m.Weather = some c :: rest) →
    i + pre.length ≤ list.length →
    forecastLoop tz i (pre ++ e :: post) list = .error f
  | [], i, list, _, _ => by simp [forecastLoop, he, bind, Except.bind]
  | x :: pre, i, list, hwf, hlen => by
    obtain ⟨m, c, rest, rfl, hw⟩ := hwf x (by simp)
    have hlen1 : i + 1 + pre.length ≤ list.length := by
      simp only [List.length_cons] at hlen; omega
    have hi : i < list.length := by omega
    have ih := fun v => forecastLoop_fault tz f e post he pre (i + 1) (list.set i v)
      (fun y hy => hwf y (by simp [hy])) (by simpa using hlen1)
    simp only [List.cons_append, forecastLoop, forecastWeather_ok tz m c rest hw, setIndex, hi,
      if_true, bind, Except.bind]
    exact ih _

theorem forecastLoop_isOk (tz : String) : ∀ (hourly : List (Option OpenWeatherMapMain))
    (i : Nat) (list r : List (Option Weather)),
    forecastLoop tz i hourly list = .ok r →
    ∀ e ∈ hourly, ∃ m c rest, e = some m ∧ m.Weather = some c :: rest
  | [], _, _, _, _ => by simp
  | e :: hourly, i, list, r, h => by
    cases hx : forecastWeather tz e with
    | error f => simp [forecastLoop, hx, bind, Except.bind] at h
    | ok x =>
      cases hs : setIndex list i (some x) with
      | error f => simp [forecastLoop, hx, hs, bind, Except.bind] at h
      | ok list1 =>
        simp only [forecastLoop, hx, hs, bind, Except.bind] at h
        intro y hy
        rcases List.mem_cons.mp hy with rfl | hy
        · exact forecastWeather_isOk tz _ x hx
        · exact forecastLoop_isOk tz hourly (i + 1) list1 r h y hy

theorem forecastList_nil : forecastList none = .error .nilDereference := rfl

theorem forecastList_ok (o : OpenWeatherMapWeatherForecastResponse)
    (hwf : ∀ e ∈ o.Hourly, ∃ m c rest, e = some m ∧ m.Weather = some c :: rest) :
    forecastList (some o) =
      .ok (o.Hourly.map (fun e => (forecastWeather o.TimeZone e).toOption)) := by
  simp [forecastList, deref, bind, Except.bind, forecastLoop_ok o.TimeZone o.Hourly 0 _ hwf]

theorem forecastList_isOk (out : Option OpenWeatherMapWeatherForecastResponse)
    (r : List (Option Weather)) (h : forecastList out = .ok r) :
    ∃ o, out = some o ∧
      ∀ e ∈ o.Hourly, ∃ m c rest, e = some m ∧ m.Weather = some c :: rest := by
  cases out with
  | none => simp [forecastList_nil] at h
  | some o =>
    refine ⟨o, rfl, ?_⟩
    simp only [forecastList, deref, bind, Except.bind] at h
    exact forecastLoop_isOk o.TimeZone o.Hourly 0 _ r h

theorem forecastList_fault (o : OpenWeatherMapWeatherForecastResponse) (f : Fault)
    (pre post : List (Option OpenWeatherMapMain)) (e : Option OpenWeatherMapMain)
    (hsplit : o.Hourly = pre ++ e :: post)
    (hpre : ∀ x ∈ pre, ∃ m c rest, x = some m ∧ m.Weather = some c :: rest)
    (he : forecastWeather o.TimeZone e = .error f) :
    forecastList (some o) = .error f := by
  simp only [forecastList, deref, bind, Except.bind]
  rw [hsplit]
  exact forecastLoop_fault o.TimeZone f e post he pre 0 _ hpre (by simp)

/-! ## `GetForecast` -/

/-- The run of `GetForecast` once the body is decoded. -/
theorem GetForecast_decoded (rt : Runtime) (owm : OpenWeatherMap) (loc : Location)
    (req : HttpResponse) (b : Bytes) (out : Option OpenWeatherMapWeatherForecastResponse)
    (hloc : owm.location = some loc)
    (hget : owm.client.Get (forecastURL rt loc owm.secret) = .ok req)
    (hstatus : req.StatusCode ≠ 401)
    (hbody : req.Body = .ok b)
    (hdec : rt.unmarshalForecastResponse b = .ok out) :
    (GetForecast rt owm).outcome =
      match forecastList out with
      | .error f => .fault f
      | .ok list => .returned (some list) none := by
  have hs : ¬ req.StatusCode = StatusUnauthorized := hstatus
  simp [GetForecast, hloc, hget, hbody, hdec, hs]

/-- A `Weather` is returned by `GetCurrent` only after a successful decoding. -/
theorem GetCurrent_returned_value (rt : Runtime) (owm : OpenWeatherMap) (loc : Location)
    (hloc : owm.location = some loc) (w : Weather) (e : Option String)
    (h : (GetCurrent rt owm).outcome = .returned (some w) e) :
    ∃ req b out, owm.client.Get (currentURL rt loc owm.secret) = .ok req ∧
      req.Body = .ok b ∧ rt.unmarshalWeatherResponse b = .ok out ∧
      currentWeather out = .ok w := by
  cases hget : owm.client.Get (currentURL rt loc owm.secret) with
  | error err => simp [GetCurrent, hloc, hget] at h
  | ok req =>
    cases hbody : req.Body with
    | error err => simp [GetCurrent, hloc, hget, hbody] at h
    | ok b =>
      cases hdec : rt.unmarshalWeatherResponse b with
      | error err => simp [GetCurrent, hloc, hget, hbody, hdec] at h
      | ok out =>
        rw [GetCurrent_decoded rt owm loc req b out hloc hget hbody hdec] at h
        cases hw : currentWeather out with
        | error f => simp [hw] at h
        | ok w1 =>
          simp only [hw, Outcome.returned.injEq, Option.some.injEq] at h
          exact ⟨req, b, out, rfl, hbody, hdec, by rw [hw, h.1]⟩

/-- A list is returned by `GetForecast` only after a successful decoding. -/
theorem GetForecast_returned_value (rt : Runtime) (owm : OpenWeatherMap) (loc : Location)
    (hloc : owm.location = some loc) (list : List (Option Weather)) (e : Option String)
    (h : (GetForecast rt owm).outcome = .returned (some list) e) :
    ∃ req b out, owm.client.Get (forecastURL rt loc owm.secret) = .ok req ∧
      req.StatusCode ≠ 401 ∧ req.Body = .ok b ∧
      rt.unmarshalForecastResponse b = .ok out ∧ forecastList out = .ok list := by
  cases hget : owm.client.Get (forecastURL rt loc owm.secret) with
  | error err => simp [GetForecast, hloc, hget] at h
  | ok req =>
    by_cases hs : req.StatusCode = StatusUnauthorized
    · simp [GetForecast, hloc, hget, hs] at h
    · cases hbody : req.Body with
      | error err => simp [GetForecast, hloc, hget, hs, hbody] at h
      | ok b =>
        cases hdec : rt.unmarshalForecastResponse b with
        | error err => simp [GetForecast, hloc, hget, hs, hbody, hdec] at h
        | ok out =>
          rw [GetForecast_decoded rt owm loc req b out hloc hget hs hbody hdec] at h
          cases hw : forecastList out with
          | error f => simp [hw] at h
          | ok l1 =>
            simp only [hw, Outcome.returned.injEq, Option.some.injEq] at h
            exact ⟨req, b, out, rfl, hs, hbody, hdec, by rw [hw, h.1]⟩

/-! ## The claims on `GetCurrent` -/

/-- C2, counterexample: a response that decodes successfully, has a main block and a
condition array of two entries, the first of them `null`, makes `GetCurrent` end in a
nil-dereference fault: no `Weather` is returned. -/
theorem GetCurrent_nonempty_conditions_counterexample :
    (constRuntime (.ok (some nullFirstConditionResponse)) (.ok none)).unmarshalWeatherResponse []
        = .ok (some nullFirstConditionResponse) ∧
    nullFirstConditionResponse.Main = some roundTripMain ∧
    nullFirstConditionResponse.Weather = [none, some lightRain] ∧
    (GetCurrent (constRuntime (.ok (some nullFirstConditionResponse)) (.ok none))
        (exampleClient (.ok ⟨200, .ok []⟩))).outcome = .fault .nilDereference :=
  ⟨rfl, rfl, rfl, rfl⟩

/-- C2, as amended: for every current-weather response that decodes successfully, has a
main block and a condition array whose first entry is present (not `null`), `GetCurrent`
returns no error and the `Weather` with `Type` and `Description` the main label and the
description of the first condition entry, `DateTime` the instant `dt` seconds after the
UNIX epoch, `Temp`, `TempFeeling`, `TempMin`, `TempMax`, `Humidity` the `temp`,
`feels_like`, `temp_min`, `temp_max`, `humidity` of the main block, and an empty
`TimeZone`.  In particular the fixture of the round-trip scenario yields
`Clear`, `clear sky`, 20.5, 19.8, 18.0, 22.0, 55 at 2023-11-14T22:13:20Z. -/
theorem GetCurrent_maps_valid_response :
    (∀ (rt : Runtime) (owm : OpenWeatherMap) (loc : Location) (req : HttpResponse) (b : Bytes)
      (out : OpenWeatherMapWeatherResponse) (c : OpenWeatherMapWeather)
      (rest : List (Option OpenWeatherMapWeather)) (m : OpenWeatherMapMain),
      owm.location = some loc →
      owm.client.Get (currentURL rt loc owm.secret) = .ok req →
      req.Body = .ok b →
      rt.unmarshalWeatherResponse b = .ok (some out) →
      out.Main = some m →
      out.Weather = some c :: rest →
      (GetCurrent rt owm).outcome = .returned (some {
        «Type» := c.Main
        Description := c.Description
        TimeZone := ""
        DateTime := time.Unix out.DateTime 0
        Temp := m.Temp
        TempFeeling := m.FeelsLike
        TempMin := m.TempMin
        TempMax := m.TempMax
        Humidity := m.Humidity }) none) ∧
    (GetCurrent (constRuntime (.ok (some roundTripResponse)) (.ok none))
        (exampleClient (.ok ⟨200, .ok []⟩))).outcome = .returned (some {
      «Type» := "Clear"
      Description := "clear sky"
      TimeZone := ""
      DateTime := utcInstant 2023 11 14 22 13 20
      Temp := ⟨0x4034800000000000⟩
      TempFeeling := ⟨0x4033cccccccccccd⟩
      TempMin := ⟨0x4032000000000000⟩
      TempMax := ⟨0x4036000000000000⟩
      Humidity := ⟨0x404b800000000000⟩ }) none := by
  have gen : ∀ (rt : Runtime) (owm : OpenWeatherMap) (loc : Location) (req : HttpResponse)
      (b : Bytes) (out : OpenWeatherMapWeatherResponse) (c : OpenWeatherMapWeather)
      (rest : List (Option OpenWeatherMapWeather)) (m : OpenWeatherMapMain),
      owm.location = some loc →
      owm.client.Get (currentURL rt loc owm.secret) = .ok req →
      req.Body = .ok b →
      rt.unmarshalWeatherResponse b = .ok (some out) →
      out.Main = some m →
      out.Weather = some c :: rest →
      (GetCurrent rt owm).outcome = .returned (some {
        «Type» := c.Main
        Description := c.Description
        TimeZone := ""
        DateTime := time.Unix out.DateTime 0
        Temp := m.Temp
        TempFeeling := m.FeelsLike
        TempMin := m.TempMin
        TempMax := m.TempMax
        Humidity := m.Humidity }) none := by
    intro rt owm loc req b out c rest m hloc hget hbody hdec hmain hcond
    rw [GetCurrent_decoded rt owm loc req b (some out) hloc hget hbody hdec,
      currentWeather_ok out c rest m hcond hmain]
  refine ⟨gen, ?_⟩
  rw [gen _ _ amsterdam ⟨200, .ok []⟩ [] roundTripResponse ⟨0, "Clear", "clear sky", ""⟩ []
    roundTripMain rfl rfl rfl rfl rfl rfl]
  decide

/-- C2, witness: the amended claim at a response reporting light rain. -/
theorem GetCurrent_maps_valid_response_witness :
    (exampleClient (.ok ⟨200, .ok []⟩)).location = some amsterdam ∧
    ({ noMainResponse with Main := some roundTripMain } : OpenWeatherMapWeatherResponse).Weather
      = [some lightRain] ∧
    (GetCurrent
        (constRuntime (.ok (some { noMainResponse with Main := some roundTripMain })) (.ok none))
        (exampleClient (.ok ⟨200, .ok []⟩))).outcome = .returned (some {
      «Type» := "Rain"
      Description := "light rain"
      TimeZone := ""
      DateTime := time.Unix 1700000000 0
      Temp := ⟨0x4034800000000000⟩
      TempFeeling := ⟨0x4033cccccccccccd⟩
      TempMin := ⟨0x4032000000000000⟩
      TempMax := ⟨0x4036000000000000⟩
      Humidity := ⟨0x404b800000000000⟩ }) none :=
  ⟨rfl, rfl,
    GetCurrent_maps_valid_response.1
      (constRuntime (.ok (some { noMainResponse with Main := some roundTripMain })) (.ok none))
      (exampleClient (.ok ⟨200, .ok []⟩)) amsterdam ⟨200, .ok []⟩ []
      { noMainResponse with Main := some roundTripMain } lightRain [] roundTripMain
      rfl rfl rfl rfl rfl rfl⟩

/-- C7: the URL requested by `GetCurrent` is
`<base>/weather?lat=<lat>&lon=<lat>&appid=<secret>&units=metric`, the latitude in the
format `%.3f` filling both the `lat` and the `lon` parameter; the run of `GetCurrent`
is the same whatever longitude the client stores. -/
theorem GetCurrent_url_ignores_longitude (rt : Runtime) (key secret : String)
    (loc : Location) (http : HttpClient) (lon : Float64) :
    (GetCurrent rt ⟨key, secret, some loc, http⟩).requestedURLs =
      ["https://api.openweathermap.org/data/2.5/weather?lat=" ++ rt.formatF3 loc.Lat ++
        "&lon=" ++ rt.formatF3 loc.Lat ++ "&appid=" ++ secret ++ "&units=metric"] ∧
    (GetCurrent rt ⟨key, secret, some { loc with Lon := lon }, http⟩).requestedURLs =
      (GetCurrent rt ⟨key, secret, some loc, http⟩).requestedURLs ∧
    GetCurrent rt ⟨key, secret, some { loc with Lon := lon }, http⟩ =
      GetCurrent rt ⟨key, secret, some loc, http⟩ := by
  have hurl : currentURL rt loc secret =
      "https://api.openweathermap.org/data/2.5/weather?lat=" ++ rt.formatF3 loc.Lat ++
        "&lon=" ++ rt.formatF3 loc.Lat ++ "&appid=" ++ secret ++ "&units=metric" := by
    apply String.ext
    simp [currentURL, Sprintf, Sprintf.go, OpenWeatherMapApiUrl]
  have hsame : GetCurrent rt ⟨key, secret, some { loc with Lon := lon }, http⟩ =
      GetCurrent rt ⟨key, secret, some loc, http⟩ := by
    simp [GetCurrent, currentURL]
  refine ⟨?_, by rw [hsame], hsame⟩
  rw [← hurl]
  cases hget : http.Get (currentURL rt loc secret) with
  | error err => simp [GetCurrent, Run.requestedURLs, hget]
  | ok req =>
    cases hbody : req.Body with
    | error err => simp [GetCurrent, Run.requestedURLs, hget, hbody]
    | ok b =>
      cases hdec : rt.unmarshalWeatherResponse b <;>
        simp [GetCurrent, Run.requestedURLs, hget, hbody, hdec]

/-- C10, counterexample: on a response that decodes without error to an object with
neither a main block nor a condition entry, `GetCurrent` ends in the index-out-of-range
fault of the empty condition array, not in a nil-dereference fault. -/
theorem GetCurrent_no_main_counterexample :
    (constRuntime (.ok (some bareResponse)) (.ok none)).unmarshalWeatherResponse []
        = .ok (some bareResponse) ∧
    bareResponse.Main = none ∧
    (GetCurrent (constRuntime (.ok (some bareResponse)) (.ok none))
        (exampleClient (.ok ⟨200, .ok []⟩))).outcome = .fault (.indexOutOfRange 0 0) ∧
    (GetCurrent (constRuntime (.ok (some bareResponse)) (.ok none))
        (exampleClient (.ok ⟨200, .ok []⟩))).outcome ≠ .fault .nilDereference :=
  ⟨rfl, rfl, rfl, by decide⟩

/-- C10, as amended: a successful decoding with a non-empty condition array is not
sufficient for `GetCurrent` to return.  For every body that decodes without error to an
object that lacks the main block, `GetCurrent` returns neither a `Weather` nor an error:
it ends in a nil-dereference fault when the condition array is non-empty, and in the
index-out-of-range fault of the condition array when that array is empty.  `GetCurrent`
returns a `Weather` exactly when decoding succeeds, the decoded response is not `null`,
its condition array is non-empty with a first entry that is not `null`, and its main
block is present. -/
theorem GetCurrent_returns_iff (rt : Runtime) (owm : OpenWeatherMap) (loc : Location)
    (hloc : owm.location = some loc) :
    (∀ (req : HttpResponse) (b : Bytes) (out : OpenWeatherMapWeatherResponse),
      owm.client.Get (currentURL rt loc owm.secret) = .ok req →
      req.Body = .ok b →
      rt.unmarshalWeatherResponse b = .ok (some out) →
      out.Main = none →
      (out.Weather ≠ [] → (GetCurrent rt owm).outcome = .fault .nilDereference) ∧
      (out.Weather = [] → (GetCurrent rt owm).outcome = .fault (.indexOutOfRange 0 0))) ∧
    ((∃ w e, (GetCurrent rt owm).outcome = .returned (some w) e) ↔
      ∃ req b out c rest m,
        owm.client.Get (currentURL rt loc owm.secret) = .ok req ∧
        req.Body = .ok b ∧
        rt.unmarshalWeatherResponse b = .ok (some out) ∧
        out.Weather = some c :: rest ∧
        out.Main = some m) := by
  refine ⟨?_, ?_, ?_⟩
  · intro req b out hget hbody hdec hmain
    rw [GetCurrent_decoded rt owm loc req b (some out) hloc hget hbody hdec]
    exact ⟨fun hne => by rw [currentWeather_noMain out hmain hne],
      fun he => by rw [currentWeather_empty out he]⟩
  · rintro ⟨w, e, h⟩
    obtain ⟨req, b, out, hget, hbody, hdec, hw⟩ :=
      GetCurrent_returned_value rt owm loc hloc w e h
    obtain ⟨o, c, rest, m, rfl, hc, hm⟩ := currentWeather_isOk out w hw
    exact ⟨req, b, o, c, rest, m, hget, hbody, hdec, hc, hm⟩
  · rintro ⟨req, b, out, c, rest, m, hget, hbody, hdec, hc, hm⟩
    rw [GetCurrent_decoded rt owm loc req b (some out) hloc hget hbody hdec,
      currentWeather_ok out c rest m hc hm]
    exact ⟨_, _, rfl⟩

/-- C10, witness: a response with one condition entry and no main block. -/
theorem GetCurrent_returns_iff_witness :
    (exampleClient (.ok ⟨200, .ok []⟩)).location = some amsterdam ∧
    noMainResponse.Main = none ∧
    noMainResponse.Weather = [some lightRain] ∧
    (GetCurrent (constRuntime (.ok (some noMainResponse)) (.ok none))
        (exampleClient (.ok ⟨200, .ok []⟩))).outcome = .fault .nilDereference :=
  ⟨rfl, rfl, rfl,
    ((GetCurrent_returns_iff (constRuntime (.ok (some noMainResponse)) (.ok none))
      (exampleClient (.ok ⟨200, .ok []⟩)) amsterdam rfl).1
      ⟨200, .ok []⟩ [] noMainResponse rfl rfl rfl rfl).1 (by decide)⟩

/-! ## The claims on the errors of both operations -/

/-- C4, the code at a refused connection: `GetForecast` returns no list and an error
that names the provider, `open-weather-map: ` followed by the message of the transport
error; `GetCurrent` returns no `Weather` and the transport error as it is, whose message
does not name the provider. -/
theorem GetCurrent_transport_error_not_wrapped :
    (GetForecast (constRuntime (.ok none) (.ok none))
        (exampleClient (.error connectionRefused))).outcome =
      .returned none (some ("open-weather-map: " ++ connectionRefused)) ∧
    (GetCurrent (constRuntime (.ok none) (.ok none))
        (exampleClient (.error connectionRefused))).outcome =
      .returned none (some connectionRefused) ∧
    connectionRefused ≠ "open-weather-map: " ++ connectionRefused := by
  refine ⟨?_, rfl, by decide⟩
  simp [GetForecast, exampleClient, constClient, Errorf_wrap]

/-- C5: for every HTTP 200 response whose body fails JSON decoding, `GetCurrent` returns
a nil `Weather` and the decode error, and `GetForecast` returns a nil list and the
decode error wrapped with the name of the provider; neither of them faults.  The two
operations are taken separately, each on the response to its own request, and
`GetCurrent` does so whatever the status. -/
theorem malformed_body_gives_decode_error (rt : Runtime) (owm : OpenWeatherMap)
    (loc : Location) (hloc : owm.location = some loc) :
    (∀ (req : HttpResponse) (b : Bytes) (msg : String),
      owm.client.Get (currentURL rt loc owm.secret) = .ok req →
      req.Body = .ok b →
      rt.unmarshalWeatherResponse b = .error msg →
      (GetCurrent rt owm).outcome = .returned none (some msg)) ∧
    (∀ (req : HttpResponse) (b : Bytes) (msg : String),
      owm.client.Get (forecastURL rt loc owm.secret) = .ok req →
      req.StatusCode = 200 →
      req.Body = .ok b →
      rt.unmarshalForecastResponse b = .error msg →
      (GetForecast rt owm).outcome =
        .returned none (some ("open-weather-map: " ++ msg))) := by
  constructor
  · intro req b msg hget hbody hdec
    simp [GetCurrent, hloc, hget, hbody, hdec]
  · intro req b msg hget hstatus hbody hdec
    have hs : ¬ req.StatusCode = StatusUnauthorized := by
      rw [hstatus]; decide
    simp [GetForecast, hloc, hget, hs, hbody, hdec, Errorf_wrap]

/-- C5, witness: a body cut off after two bytes, sent with status 200.  Each operation
meets a decoder that rejects its own body while the decoder of the other operation
would succeed. -/
theorem malformed_body_gives_decode_error_witness :
    (exampleClient (.ok ⟨200, .ok truncatedBody⟩)).location = some amsterdam ∧
    (constRuntime (.error unexpectedEnd) (.ok (some twoHours))).unmarshalWeatherResponse
      truncatedBody = .error unexpectedEnd ∧
    (constRuntime (.error unexpectedEnd) (.ok (some twoHours))).unmarshalForecastResponse
      truncatedBody = .ok (some twoHours) ∧
    (GetCurrent (constRuntime (.error unexpectedEnd) (.ok (some twoHours)))
        (exampleClient (.ok ⟨200, .ok truncatedBody⟩))).outcome =
      .returned none (some unexpectedEnd) ∧
    (constRuntime (.ok (some roundTripResponse)) (.error unexpectedEnd)).unmarshalForecastResponse
      truncatedBody = .error unexpectedEnd ∧
    (constRuntime (.ok (some roundTripResponse)) (.error unexpectedEnd)).unmarshalWeatherResponse
      truncatedBody = .ok (some roundTripResponse) ∧
    (GetForecast (constRuntime (.ok (some roundTripResponse)) (.error unexpectedEnd))
        (exampleClient (.ok ⟨200, .ok truncatedBody⟩))).outcome =
      .returned none (some ("open-weather-map: " ++ unexpectedEnd)) :=
  ⟨rfl, rfl, rfl,
    (malformed_body_gives_decode_error
      (constRuntime (.error unexpectedEnd) (.ok (some twoHours)))
      (exampleClient (.ok ⟨200, .ok truncatedBody⟩)) amsterdam rfl).1
      ⟨200, .ok truncatedBody⟩ truncatedBody unexpectedEnd rfl rfl rfl,
    rfl, rfl,
    (malformed_body_gives_decode_error
      (constRuntime (.ok (some roundTripResponse)) (.error unexpectedEnd))
      (exampleClient (.ok ⟨200, .ok truncatedBody⟩)) amsterdam rfl).2
      ⟨200, .ok truncatedBody⟩ truncatedBody unexpectedEnd rfl rfl rfl rfl⟩

/-! ## The claims on `GetForecast` -/

/-- C3: for every response with HTTP status 401, whatever its body and whatever the
decoder would make of it, `GetForecast` returns no list and the error
`open-weather-map: invalid api key`; the body is neither read nor decoded. -/
theorem GetForecast_unauthorized (rt : Runtime) (owm : OpenWeatherMap) (loc : Location)
    (req : HttpResponse)
    (hloc : owm.location = some loc)
    (hget : owm.client.Get (forecastURL rt loc owm.secret) = .ok req)
    (hstatus : req.StatusCode = 401) :
    (GetForecast rt owm).outcome =
      .returned none (some "open-weather-map: invalid api key") ∧
    (GetForecast rt owm).effects =
      [.stdout (Println rt [.float loc.Lat, .float loc.Lat]),
        .stdout (Println rt [.str (forecastURL rt loc owm.secret)]),
        .httpGet (forecastURL rt loc owm.secret), .bodyClose] ∧
    (GetForecast rt owm).decodes = false := by
  have hs : req.StatusCode = StatusUnauthorized := hstatus
  simp [GetForecast, hloc, hget, hs, Errorf_invalidKey, Run.decodes]

/-- C3, witness: status 401 with a cut-off body that the decoder rejects. -/
theorem GetForecast_unauthorized_witness :
    (exampleClient (.ok ⟨401, .ok truncatedBody⟩)).location = some amsterdam ∧
    (constRuntime (.error unexpectedEnd) (.error unexpectedEnd)).unmarshalForecastResponse
      truncatedBody = .error unexpectedEnd ∧
    (GetForecast (constRuntime (.error unexpectedEnd) (.error unexpectedEnd))
        (exampleClient (.ok ⟨401, .ok truncatedBody⟩))).outcome =
      .returned none (some "open-weather-map: invalid api key") :=
  ⟨rfl, rfl,
    (GetForecast_unauthorized (constRuntime (.error unexpectedEnd) (.error unexpectedEnd))
      (exampleClient (.ok ⟨401, .ok truncatedBody⟩)) amsterdam ⟨401, .ok truncatedBody⟩
      rfl rfl rfl).1⟩

/-- C9: `GetForecast` treats every HTTP status other than 401 like success.  For any
status other than 401 and any body that decodes to an object with no hourly entry,
`GetForecast` returns an empty list and a nil error; and two responses with statuses
other than 401 and the same body give the same run. -/
theorem GetForecast_status_ignored (rt : Runtime) (key secret : String) (loc : Location) :
    (∀ (http : HttpClient) (req : HttpResponse) (b : Bytes)
      (out : OpenWeatherMapWeatherForecastResponse),
      http.Get (forecastURL rt loc secret) = .ok req →
      req.StatusCode ≠ 401 →
      req.Body = .ok b →
      rt.unmarshalForecastResponse b = .ok (some out) →
      out.Hourly = [] →
      (GetForecast rt ⟨key, secret, some loc, http⟩).outcome = .returned (some []) none) ∧
    (∀ (http1 http2 : HttpClient) (req1 req2 : HttpResponse),
      http1.Get (forecastURL rt loc secret) = .ok req1 →
      http2.Get (forecastURL rt loc secret) = .ok req2 →
      req1.StatusCode ≠ 401 →
      req2.StatusCode ≠ 401 →
      req1.Body = req2.Body →
      GetForecast rt ⟨key, secret, some loc, http1⟩ =
        GetForecast rt ⟨key, secret, some loc, http2⟩) := by
  constructor
  · intro http req b out hget hstatus hbody hdec hhourly
    rw [GetForecast_decoded rt ⟨key, secret, some loc, http⟩ loc req b (some out) rfl hget
      hstatus hbody hdec, forecastList_ok out (by simp [hhourly])]
    simp [hhourly]
  · intro http1 http2 req1 req2 hget1 hget2 hs1 hs2 hbody
    have h1 : ¬ req1.StatusCode = StatusUnauthorized := hs1
    have h2 : ¬ req2.StatusCode = StatusUnauthorized := hs2
    simp [GetForecast, hget1, hget2, h1, h2, hbody]

/-- C9, witness: an error payload without an hourly block, sent with status 404. -/
theorem GetForecast_status_ignored_witness :
    ((404 : Int) ≠ 401) ∧
    (constRuntime (.ok none) (.ok (some noHours))).unmarshalForecastResponse [] =
      .ok (some noHours) ∧
    noHours.Hourly = [] ∧
    (GetForecast (constRuntime (.ok none) (.ok (some noHours)))
        ⟨"key", "secret", some amsterdam, constClient (.ok ⟨404, .ok []⟩)⟩).outcome =
      .returned (some []) none :=
  ⟨by decide, rfl, rfl,
    (GetForecast_status_ignored (constRuntime (.ok none) (.ok (some noHours)))
      "key" "secret" amsterdam).1 (constClient (.ok ⟨404, .ok []⟩)) ⟨404, .ok []⟩ [] noHours
      rfl (by decide) rfl rfl rfl⟩

/-- C1, counterexample: a forecast response that decodes successfully and has one
hourly entry, whose condition array holds two entries, the first of them `null`, sent
with status 200, makes `GetForecast` end in a nil-dereference fault: no list is
returned. -/
theorem GetForecast_one_condition_entry_counterexample :
    (constRuntime (.ok none) (.ok (some nullFirstConditionHour))).unmarshalForecastResponse []
        = .ok (some nullFirstConditionHour) ∧
    nullFirstConditionHour.Hourly = [some (hourAt 1700000000 [none, some lightRain])] ∧
    (hourAt 1700000000 [none, some lightRain]).Weather.length = 2 ∧
    ((200 : Int) ≠ 401) ∧
    (GetForecast (constRuntime (.ok none) (.ok (some nullFirstConditionHour)))
        (exampleClient (.ok ⟨200, .ok []⟩))).outcome = .fault .nilDereference :=
  ⟨rfl, rfl, rfl, by decide, rfl⟩

/-- C1, as amended: for every forecast response that decodes successfully and has N
hourly entries, each of them present (not `null`) with a first condition entry that is
present, and for every HTTP status other than 401, `GetForecast` returns no error and a
list of exactly N `Weather` records, where record i is derived from hourly entry i (its
`DateTime` is the time of entry i's `dt`) and every record's `TimeZone` equals the
response-level timezone string. -/
theorem GetForecast_one_record_per_hour (rt : Runtime) (owm : OpenWeatherMap)
    (loc : Location) (req : HttpResponse) (b : Bytes)
    (out : OpenWeatherMapWeatherForecastResponse)
    (hloc : owm.location = some loc)
    (hget : owm.client.Get (forecastURL rt loc owm.secret) = .ok req)
    (hstatus : req.StatusCode ≠ 401)
    (hbody : req.Body = .ok b)
    (hdec : rt.unmarshalForecastResponse b = .ok (some out))
    (hwf : ∀ e ∈ out.Hourly, ∃ m c rest, e = some m ∧ m.Weather = some c :: rest) :
    ∃ list : List (Option Weather),
      (GetForecast rt owm).outcome = .returned (some list) none ∧
      list.length = out.Hourly.length ∧
      ∀ i, i < out.Hourly.length → ∃ m w,
        out.Hourly[i]? = some (some m) ∧
        list[i]? = some (some w) ∧
        forecastWeather out.TimeZone (some m) = .ok w ∧
        w.DateTime = time.Unix m.Dt 0 ∧
        w.TimeZone = out.TimeZone := by
  refine ⟨out.Hourly.map (fun e => (forecastWeather out.TimeZone e).toOption), ?_, ?_, ?_⟩
  · rw [GetForecast_decoded rt owm loc req b (some out) hloc hget hstatus hbody hdec,
      forecastList_ok out hwf]
  · simp
  · intro i hi
    obtain ⟨m, c, rest, hm, hc⟩ := hwf out.Hourly[i] (List.getElem_mem hi)
    have hw := forecastWeather_ok out.TimeZone m c rest hc
    refine ⟨m, _, ?_, ?_, hw, rfl, rfl⟩
    · rw [List.getElem?_eq_getElem hi, hm]
    · rw [List.getElem?_map, List.getElem?_eq_getElem hi, hm]
      simp [hw, Except.toOption]

/-- C1, witness: two well-formed hours sent with status 200. -/
theorem GetForecast_one_record_per_hour_witness :
    (exampleClient (.ok ⟨200, .ok []⟩)).location = some amsterdam ∧
    ((200 : Int) ≠ 401) ∧
    (constRuntime (.ok none) (.ok (some twoHours))).unmarshalForecastResponse [] =
      .ok (some twoHours) ∧
    twoHours.Hourly =
      [some (hourAt 1700000000 [some clearSky]), some (hourAt 1700003600 [some lightRain])] ∧
    ∃ list : List (Option Weather),
      (GetForecast (constRuntime (.ok none) (.ok (some twoHours)))
        (exampleClient (.ok ⟨200, .ok []⟩))).outcome = .returned (some list) none ∧
      list.length = twoHours.Hourly.length ∧
      ∀ i, i < twoHours.Hourly.length → ∃ m w,
        twoHours.Hourly[i]? = some (some m) ∧
        list[i]? = some (some w) ∧
        forecastWeather twoHours.TimeZone (some m) = .ok w ∧
        w.DateTime = time.Unix m.Dt 0 ∧
        w.TimeZone = twoHours.TimeZone :=
  ⟨rfl, by decide, rfl, rfl,
    GetForecast_one_record_per_hour (constRuntime (.ok none) (.ok (some twoHours)))
      (exampleClient (.ok ⟨200, .ok []⟩)) amsterdam ⟨200, .ok []⟩ [] twoHours
      rfl rfl (by decide) rfl rfl (by simp [twoHours, forecastOf, hourAt])⟩

/-- C8, counterexample: in a decoded forecast response sent with status 200 whose first
hour is well-formed and whose second hour has an empty condition array, index 0 is an
index whose entry has a non-empty condition array, yet `GetForecast` returns no list at
all: it ends in an index-out-of-range fault. -/
theorem GetForecast_entry_counterexample :
    (constRuntime (.ok none) (.ok (some secondHourEmpty))).unmarshalForecastResponse []
        = .ok (some secondHourEmpty) ∧
    ((200 : Int) ≠ 401) ∧
    secondHourEmpty.Hourly[0]? = some (some (hourAt 1700000000 [some clearSky])) ∧
    (hourAt 1700000000 [some clearSky]).Weather = [some clearSky] ∧
    (GetForecast (constRuntime (.ok none) (.ok (some secondHourEmpty)))
        (exampleClient (.ok ⟨200, .ok []⟩))).outcome = .fault (.indexOutOfRange 0 0) :=
  ⟨rfl, by decide, rfl, rfl, rfl⟩

/-- C8, as amended: for every successfully decoded forecast response (status not 401)
in which every hourly entry is present (not `null`) and has a first condition entry that
is present, and for every index i into its hourly block, the i-th `Weather` returned by
`GetForecast` has `DateTime` the instant `hourly[i].dt` seconds after the UNIX epoch,
`Temp`, `TempFeeling`, `TempMin`, `TempMax`, `Humidity` the `temp`, `feels_like`,
`temp_min`, `temp_max`, `humidity` of `hourly[i]`, `Type` the main label of the first
condition entry of `hourly[i]`, `TimeZone` the response timezone, and an empty
`Description`. -/
theorem GetForecast_maps_each_hour (rt : Runtime) (owm : OpenWeatherMap)
    (loc : Location) (req : HttpResponse) (b : Bytes)
    (out : OpenWeatherMapWeatherForecastResponse)
    (hloc : owm.location = some loc)
    (hget : owm.client.Get (forecastURL rt loc owm.secret) = .ok req)
    (hstatus : req.StatusCode ≠ 401)
    (hbody : req.Body = .ok b)
    (hdec : rt.unmarshalForecastResponse b = .ok (some out))
    (hwf : ∀ e ∈ out.Hourly, ∃ m c rest, e = some m ∧ m.Weather = some c :: rest)
    (i : Nat) (m : OpenWeatherMapMain) (c : OpenWeatherMapWeather)
    (rest : List (Option OpenWeatherMapWeather))
    (hi : out.Hourly[i]? = some (some m))
    (hc : m.Weather = some c :: rest) :
    ∃ list : List (Option Weather),
      (GetForecast rt owm).outcome = .returned (some list) none ∧
      list[i]? = some (some {
        «Type» := c.Main
        Description := ""
        TimeZone := out.TimeZone
        DateTime := time.Unix m.Dt 0
        Temp := m.Temp
        TempFeeling := m.FeelsLike
        TempMin := m.TempMin
        TempMax := m.TempMax
        Humidity := m.Humidity }) := by
  refine ⟨out.Hourly.map (fun e => (forecastWeather out.TimeZone e).toOption), ?_, ?_⟩
  · rw [GetForecast_decoded rt owm loc req b (some out) hloc hget hstatus hbody hdec,
      forecastList_ok out hwf]
  · rw [List.getElem?_map, hi]
    simp [forecastWeather_ok out.TimeZone m c rest hc, Except.toOption]

/-- C8, witness: the second of two well-formed hours. -/
theorem GetForecast_maps_each_hour_witness :
    (exampleClient (.ok ⟨200, .ok []⟩)).location = some amsterdam ∧
    ((200 : Int) ≠ 401) ∧
    twoHours.Hourly[1]? = some (some (hourAt 1700003600 [some lightRain])) ∧
    ∃ list : List (Option Weather),
      (GetForecast (constRuntime (.ok none) (.ok (some twoHours)))
        (exampleClient (.ok ⟨200, .ok []⟩))).outcome = .returned (some list) none ∧
      list[1]? = some (some {
        «Type» := "Rain"
        Description := ""
        TimeZone := "Europe/Amsterdam"
        DateTime := time.Unix 1700003600 0
        Temp := ⟨0x402899999999999a⟩
        TempFeeling := ⟨0x4026000000000000⟩
        TempMin := ⟨0x4023000000000000⟩
        TempMax := ⟨0x402a000000000000⟩
        Humidity := ⟨0x4054000000000000⟩ }) :=
  ⟨rfl, by decide, rfl,
    GetForecast_maps_each_hour (constRuntime (.ok none) (.ok (some twoHours)))
      (exampleClient (.ok ⟨200, .ok []⟩)) amsterdam ⟨200, .ok []⟩ [] twoHours
      rfl rfl (by decide) rfl rfl (by simp [twoHours, forecastOf, hourAt])
      1 (hourAt 1700003600 [some lightRain]) lightRain [] rfl rfl⟩

/-! ## The claim on empty condition arrays -/

/-- C6, counterexample: a decoded forecast response sent with status 200 whose first
hourly entry is `null` and whose second hourly entry has an empty condition array makes
`GetForecast` end in a nil-dereference fault, not in an index-out-of-range fault. -/
theorem GetForecast_empty_conditions_counterexample :
    (constRuntime (.ok none) (.ok (some nullHourThenEmpty))).unmarshalForecastResponse []
        = .ok (some nullHourThenEmpty) ∧
    nullHourThenEmpty.Hourly = [none, some (hourAt 1700003600 [])] ∧
    (hourAt 1700003600 []).Weather = [] ∧
    (GetForecast (constRuntime (.ok none) (.ok (some nullHourThenEmpty)))
        (exampleClient (.ok ⟨200, .ok []⟩))).outcome = .fault .nilDereference ∧
    (GetForecast (constRuntime (.ok none) (.ok (some nullHourThenEmpty)))
        (exampleClient (.ok ⟨200, .ok []⟩))).outcome ≠ .fault (.indexOutOfRange 0 0) :=
  ⟨rfl, rfl, rfl, rfl, by decide⟩

/-- C6, as amended: every `Weather` produced is derived from a response entry with at
least one condition: whenever `GetCurrent` returns a `Weather`, the decoded response's
condition array was non-empty, and whenever `GetForecast` returns a list, every hourly
entry's condition array was non-empty.  On a decoded response whose condition array is
empty, `GetCurrent` ends in an unchecked index-out-of-range fault.  On a decoded
forecast response (status other than 401) with any hourly entry whose condition array
is empty, `GetForecast` ends in an unchecked fault, which is the index-out-of-range one
whenever every hourly entry before that entry is present (not `null`) with a first
condition entry that is present.  In each case the operation returns neither a result
(not even a partly filled list) nor a recoverable error. -/
theorem empty_conditions_fault (rt : Runtime) (owm : OpenWeatherMap) (loc : Location)
    (hloc : owm.location = some loc) :
    (∀ (w : Weather) (e : Option String),
      (GetCurrent rt owm).outcome = .returned (some w) e →
      ∃ req b out,
        owm.client.Get (currentURL rt loc owm.secret) = .ok req ∧
        req.Body = .ok b ∧
        rt.unmarshalWeatherResponse b = .ok (some out) ∧
        out.Weather ≠ []) ∧
    (∀ (list : List (Option Weather)) (e : Option String),
      (GetForecast rt owm).outcome = .returned (some list) e →
      ∃ req b out,
        owm.client.Get (forecastURL rt loc owm.secret) = .ok req ∧
        req.Body = .ok b ∧
        rt.unmarshalForecastResponse b = .ok (some out) ∧
        ∀ x ∈ out.Hourly, ∃ m, x = some m ∧ m.Weather ≠ []) ∧
    (∀ (req : HttpResponse) (b : Bytes) (out : OpenWeatherMapWeatherResponse),
      owm.client.Get (currentURL rt loc owm.secret) = .ok req →
      req.Body = .ok b →
      rt.unmarshalWeatherResponse b = .ok (some out) →
      out.Weather = [] →
      (GetCurrent rt owm).outcome = .fault (.indexOutOfRange 0 0)) ∧
    (∀ (req : HttpResponse) (b : Bytes) (out : OpenWeatherMapWeatherForecastResponse)
      (m : OpenWeatherMapMain),
      owm.client.Get (forecastURL rt loc owm.secret) = .ok req →
      req.StatusCode ≠ 401 →
      req.Body = .ok b →
      rt.unmarshalForecastResponse b = .ok (some out) →
      some m ∈ out.Hourly →
      m.Weather = [] →
      (∃ f, (GetForecast rt owm).outcome = .fault f) ∧
      (∀ pre post : List (Option OpenWeatherMapMain),
        out.Hourly = pre ++ some m :: post →
        (∀ x ∈ pre, ∃ h c rest, x = some h ∧ h.Weather = some c :: rest) →
        (GetForecast rt owm).outcome = .fault (.indexOutOfRange 0 0))) := by
  refine ⟨?_, ?_, ?_, ?_⟩
  · intro w e h
    obtain ⟨req, b, out, hget, hbody, hdec, hw⟩ :=
      GetCurrent_returned_value rt owm loc hloc w e h
    obtain ⟨o, c, rest, m, rfl, hc, _⟩ := currentWeather_isOk out w hw
    exact ⟨req, b, o, hget, hbody, hdec, by simp [hc]⟩
  · intro list e h
    obtain ⟨req, b, out, hget, _, hbody, hdec, hl⟩ :=
      GetForecast_returned_value rt owm loc hloc list e h
    obtain ⟨o, rfl, hwf⟩ := forecastList_isOk out list hl
    refine ⟨req, b, o, hget, hbody, hdec, ?_⟩
    intro x hx
    obtain ⟨m, c, rest, hm, hc⟩ := hwf x hx
    exact ⟨m, hm, by simp [hc]⟩
  · intro req b out hget hbody hdec hempty
    rw [GetCurrent_decoded rt owm loc req b (some out) hloc hget hbody hdec,
      currentWeather_empty out hempty]
  · intro req b out m hget hstatus hbody hdec hmem hempty
    have hrun := GetForecast_decoded rt owm loc req b (some out) hloc hget hstatus hbody hdec
    constructor
    · cases hl : forecastList (some out) with
      | error f => exact ⟨f, by rw [hrun, hl]⟩
      | ok list =>
        obtain ⟨o, ho, hwf⟩ := forecastList_isOk (some out) list hl
        cases ho
        obtain ⟨h, c, rest, hm, hc⟩ := hwf (some m) hmem
        cases hm
        rw [hempty] at hc
        cases hc
    · intro pre post hsplit hpre
      rw [hrun, forecastList_fault out (.indexOutOfRange 0 0) pre post (some m) hsplit hpre
        (forecastWeather_empty out.TimeZone m hempty)]

/-- C6, witness: a current-weather response without a condition entry, and a forecast
whose second hour has an empty condition array. -/
theorem empty_conditions_fault_witness :
    (exampleClient (.ok ⟨200, .ok []⟩)).location = some amsterdam ∧
    bareResponse.Weather = [] ∧
    (GetCurrent (constRuntime (.ok (some bareResponse)) (.ok (some secondHourEmpty)))
        (exampleClient (.ok ⟨200, .ok []⟩))).outcome = .fault (.indexOutOfRange 0 0) ∧
    secondHourEmpty.Hourly =
      [some (hourAt 1700000000 [some clearSky])] ++ some (hourAt 1700003600 []) :: [] ∧
    (GetForecast (constRuntime (.ok (some bareResponse)) (.ok (some secondHourEmpty)))
        (exampleClient (.ok ⟨200, .ok []⟩))).outcome = .fault (.indexOutOfRange 0 0) :=
  ⟨rfl, rfl,
    (empty_conditions_fault (constRuntime (.ok (some bareResponse)) (.ok (some secondHourEmpty)))
      (exampleClient (.ok ⟨200, .ok []⟩)) amsterdam rfl).2.2.1
      ⟨200, .ok []⟩ [] bareResponse rfl rfl rfl rfl,
    rfl,
    ((empty_conditions_fault
      (constRuntime (.ok (some bareResponse)) (.ok (some secondHourEmpty)))
      (exampleClient (.ok ⟨200, .ok []⟩)) amsterdam rfl).2.2.2
      ⟨200, .ok []⟩ [] secondHourEmpty (hourAt 1700003600 []) rfl (by decide) rfl rfl
      (by simp [secondHourEmpty, forecastOf]) rfl).2
      [some (hourAt 1700000000 [some clearSky])] [] rfl
      (by simp [hourAt])⟩

end client
